import Mathlib

/-
Verification of the deterministic (fallback) roommate-matching core of the
AI-Hackathon-2025 repository.

The embedding below follows the Python source:
  * `compatibility_agent.py` — `infer_lifestyle`, `infer_guests_policy`, and
    the deterministic fallback branch of `score_compatibility`
    (budget / lifestyle / guest-policy deductions, clamped score, and the
    `detected_conflicts` block, including its unbound-local `diff` failure);
  * `profile_reader.py` and `tools/profile_proccesor.py` — the normalizers.

Python conventions modelled explicitly:
  * `dict.get(k)` yields `None` when absent: optional fields are `Option`;
  * truthiness: `None` and the empty string are falsy for strings, `None`
    and `0` are falsy for ints;
  * `pat in s` is substring containment (`strContains s pat`);
  * `int(x)` on the non-negative float `diff / max_budget * 100` is modelled
    by exact integer floor division `(diff * 100) / mx` (Lean `Int.ediv`);
    numerators are non-negative and denominators positive wherever it is
    used, so floor, truncation and Euclidean division all agree.
-/

/-- Python `str.lower` restricted to per-character lowering (all the
strings compared by the source are ASCII keywords). -/
def lowerStr (s : String) : String := String.mk (s.data.map Char.toLower)

/-- Does `pat` occur at the head of the second list? -/
def headMatches : List Char → List Char → Bool
  | [], _ => true
  | _ :: _, [] => false
  | a :: as, b :: bs => a == b && headMatches as bs

/-- Substring occurrence used to model Python `pat in s`. -/
def listContains (pat : List Char) : List Char → Bool
  | [] => pat.isEmpty
  | c :: rest => headMatches pat (c :: rest) || listContains pat rest

/-- Python `pat in s` on strings. -/
def strContains (s pat : String) : Bool := listContains pat.data s.data

/-- Python truthiness of an optional string (`None` and `""` are falsy). -/
def truthyStr : Option String → Bool
  | none => false
  | some s => s != ""

/-- Profile record as consumed by `score_compatibility` (a Python dict whose
optional entries come back as `None` from `.get`). -/
structure Profile where
  id : Option String := none
  budget_PKR : Option Int := none
  sleep_schedule : Option String := none
  cleanliness : Option String := none
  noise_tolerance : Option String := none
  security_requirement : Option String := none
deriving DecidableEq, Repr

/-- Result of running a fragment of Python code: a value, or a raised
exception carrying its message. -/
inductive PyResult (α : Type) where
  | ok (val : α)
  | error (msg : String)
deriving DecidableEq, Repr

/-- One entry of `detected_conflicts` (`DetectedConflict` in the source). -/
structure DetectedConflict where
  type : String
  severity : String
  confidence : Int
deriving DecidableEq, Repr

/-- `compatibility_agent.infer_lifestyle` (lines 228-237). -/
def infer_lifestyle (sleep_schedule noise_tolerance : Option String) : Option String :=
  match sleep_schedule, noise_tolerance with
  | some s, some n =>
    if s = "" ∨ n = "" then none
    else
      if strContains (lowerStr s) "night_owl" || strContains (lowerStr n) "high" then
        some "social"
      else if strContains (lowerStr s) "early" || strContains (lowerStr n) "low" then
        some "quiet"
      else some "relaxed"
  | _, _ => none

/-- `compatibility_agent.infer_guests_policy` (lines 240-247). -/
def infer_guests_policy (security_requirement : Option String) : Option String :=
  match security_requirement with
  | some s =>
    if s = "" then none
    else
      if strContains (lowerStr s) "female_only_high_security" then
        some "no_overnight_guests"
      else if strContains (lowerStr s) "flexible_mixed_housing_ok" then
        some "open_to_guests"
      else some "moderate"
  | none => none

/-- Budget factor of the fallback deduction (lines 175-180): guarded by
Python truthiness of both budgets, then `min(int((diff / max_budget) * 100), 20)
if max_budget > 0 else 0`. -/
def budget_deduction : Option Int → Option Int → Int
  | some x, some y =>
    if x ≠ 0 ∧ y ≠ 0 then
      if 0 < max x y then min ((|x - y| * 100) / max x y) 20 else 0
    else 0
  | _, _ => 0

/-- Condition of line 187: `a_lifestyle and b_lifestyle and a_lifestyle != b_lifestyle`. -/
def lifestyle_conflict (la lb : Option String) : Prop :=
  truthyStr la = true ∧ truthyStr lb = true ∧ la ≠ lb

instance (la lb : Option String) : Decidable (lifestyle_conflict la lb) :=
  inferInstanceAs (Decidable (_ ∧ _ ∧ _))

/-- Condition of line 191: `a_guests and b_guests and a_guests != b_guests`. -/
def guest_conflict (ga gb : Option String) : Prop :=
  truthyStr ga = true ∧ truthyStr gb = true ∧ ga ≠ gb

instance (ga gb : Option String) : Decidable (guest_conflict ga gb) :=
  inferInstanceAs (Decidable (_ ∧ _ ∧ _))

/-- Lifestyle factor of the fallback deduction (lines 187-188). -/
def lifestyle_deduction (la lb : Option String) : Int :=
  if lifestyle_conflict la lb then 30 else 0

/-- Guest-policy factor of the fallback deduction (lines 191-192). -/
def guests_deduction (ga gb : Option String) : Int :=
  if guest_conflict ga gb then 25 else 0

/-- `total_deduction` accumulated in the fallback branch (lines 174-192). -/
def total_deduction (A B : Profile) : Int :=
  budget_deduction A.budget_PKR B.budget_PKR
    + lifestyle_deduction
        (infer_lifestyle A.sleep_schedule A.noise_tolerance)
        (infer_lifestyle B.sleep_schedule B.noise_tolerance)
    + guests_deduction
        (infer_guests_policy A.security_requirement)
        (infer_guests_policy B.security_requirement)

/-- `compatibility_score = max(0, min(100, 100 - total_deduction))` (line 194). -/
def compatibility_score (A B : Profile) : Int :=
  max 0 (min 100 (100 - total_deduction A B))

/-- The conflict entry appended at line 214. -/
def budget_flag : DetectedConflict := ⟨"budget_disparity", "high", 88⟩

/-- The conflict entry appended at line 218. -/
def lifestyle_flag : DetectedConflict := ⟨"lifestyle_mismatch", "high", 85⟩

/-- The conflict entry appended at line 222. -/
def guest_flag : DetectedConflict := ⟨"guest_policy", "high", 80⟩

/-- Were the locals `diff` and `max_budget` assigned by lines 175-177?
True exactly when both budgets are Python-truthy (present and nonzero). -/
def budgets_bound : Option Int → Option Int → Prop
  | some x, some y => x ≠ 0 ∧ y ≠ 0
  | _, _ => False

instance : (a b : Option Int) → Decidable (budgets_bound a b)
  | some _, some _ => inferInstanceAs (Decidable (_ ∧ _))
  | none, none => inferInstanceAs (Decidable False)
  | none, some _ => inferInstanceAs (Decidable False)
  | some _, none => inferInstanceAs (Decidable False)

/-- Line 212 condition `diff / max_budget * 100 > 50 and max_budget > 0`,
conjoined with the binding guard of lines 175-177 under which the line is
reachable without raising.  For nonzero budgets `max x y` is never zero, and
when it is negative the quotient is non-positive, so in exact arithmetic the
test is `0 < max x y ∧ 50 * max x y < |x - y| * 100`. -/
def budget_conflict : Option Int → Option Int → Prop
  | some x, some y => x ≠ 0 ∧ y ≠ 0 ∧ 0 < max x y ∧ 50 * max x y < |x - y| * 100
  | _, _ => False

instance : (a b : Option Int) → Decidable (budget_conflict a b)
  | some _, some _ => inferInstanceAs (Decidable (_ ∧ _ ∧ _ ∧ _))
  | none, none => inferInstanceAs (Decidable False)
  | none, some _ => inferInstanceAs (Decidable False)
  | some _, none => inferInstanceAs (Decidable False)

/-- The `detected_conflicts` block (lines 210-223).  The block runs only when
`total_deduction > 0`; inside it, line 212 reads the local variable `diff`,
which lines 175-177 assign only when both budgets are Python-truthy, so with a
missing (or zero) budget the block raises `UnboundLocalError` — modelled as
`PyResult.error`.  Under the `budgets_bound` guard the inner `budget_conflict`
test coincides with the test on line 212. -/
def detected_conflicts (A B : Profile) : PyResult (List DetectedConflict) :=
  if 0 < total_deduction A B then
    if budgets_bound A.budget_PKR B.budget_PKR then
      PyResult.ok
        ((if budget_conflict A.budget_PKR B.budget_PKR then [budget_flag] else [])
          ++ (if lifestyle_conflict
                (infer_lifestyle A.sleep_schedule A.noise_tolerance)
                (infer_lifestyle B.sleep_schedule B.noise_tolerance) then
              [lifestyle_flag] else [])
          ++ (if guest_conflict
                (infer_guests_policy A.security_requirement)
                (infer_guests_policy B.security_requirement) then
              [guest_flag] else []))
    else PyResult.error "UnboundLocalError: diff referenced before assignment"
  else PyResult.ok []

namespace profile_reader

/-- `profile_reader.normalize_sleep_schedule` (lines 90-101). -/
def normalize_sleep_schedule (value : Option String) : Option String :=
  match value with
  | none => none
  | some s =>
    if s = "" then none
    else
      if strContains (lowerStr s) "night" || strContains (lowerStr s) "late"
          || strContains (lowerStr s) "raat" || strContains (lowerStr s) "1am" then
        some "night_owl"
      else if strContains (lowerStr s) "early" || strContains (lowerStr s) "subah"
          || strContains (lowerStr s) "riser" then
        some "early"
      else if strContains (lowerStr s) "flexible" || strContains (lowerStr s) "chill" then
        some "flexible"
      else some "normal"

/-- `profile_reader.normalize_cleanliness` (lines 103-112). -/
def normalize_cleanliness (value : Option String) : Option String :=
  match value with
  | none => none
  | some s =>
    if s = "" then none
    else
      if strContains (lowerStr s) "tidy" || strContains (lowerStr s) "saaf" then
        some "high"
      else if strContains (lowerStr s) "messy" || strContains (lowerStr s) "ganda" then
        some "low"
      else some "medium"

/-- `profile_reader.normalize_noise_tolerance` (lines 114-125). -/
def normalize_noise_tolerance (value : Option String) : Option String :=
  match value with
  | none => none
  | some s =>
    if s = "" then none
    else
      if strContains (lowerStr s) "quiet" || strContains (lowerStr s) "shor kam" then
        some "low"
      else if strContains (lowerStr s) "moderate" || strContains (lowerStr s) "average" then
        some "medium"
      else if strContains (lowerStr s) "loud" || strContains (lowerStr s) "shor zyada"
          || strContains (lowerStr s) "high" then
        some "high"
      else some "medium"

end profile_reader

namespace profile_proccesor

/-- `tools/profile_proccesor.normalize_sleep_schedule` (lines 8-19). -/
def normalize_sleep_schedule (value : Option String) : Option String :=
  match value with
  | none => none
  | some s =>
    if s = "" then none
    else
      if strContains (lowerStr s) "night" || strContains (lowerStr s) "late"
          || strContains (lowerStr s) "1am" then
        some "night_owl"
      else if strContains (lowerStr s) "early" || strContains (lowerStr s) "riser" then
        some "early"
      else if strContains (lowerStr s) "flexible" || strContains (lowerStr s) "chill" then
        some "flexible"
      else some "normal"

end profile_proccesor

/-- The budget deduction exactly as Claim C3 words it: the ratio is rounded to
the NEAREST integer instead of being truncated.  (Python `round` sends ties to
the even neighbour; this version sends ties up.  The inputs compared with it
below are tie-free, so the tie rule is irrelevant there.)  Written only to be
compared against the source-derived `budget_deduction`. -/
def budget_deduction_claimC3 (x y : Int) : Int :=
  min ((2 * (|x - y| * 100) + max x y) / (2 * max x y)) 20

-- ## Helper lemmas

lemma infer_lifestyle_none_left (n : Option String) : infer_lifestyle none n = none := by
  cases n <;> rfl

lemma infer_lifestyle_none_right (s : Option String) : infer_lifestyle s none = none := by
  cases s <;> rfl

lemma budget_deduction_nonneg (a b : Option Int) : 0 ≤ budget_deduction a b := by
  cases a <;> cases b <;> simp only [budget_deduction, le_refl]
  split
  · split
    · exact le_min (Int.ediv_nonneg (mul_nonneg (abs_nonneg _) (by norm_num))
        (le_of_lt (by assumption))) (by norm_num)
    · exact le_refl 0
  · exact le_refl 0

lemma lifestyle_deduction_nonneg (la lb : Option String) : 0 ≤ lifestyle_deduction la lb := by
  unfold lifestyle_deduction; split <;> norm_num

lemma guests_deduction_nonneg (ga gb : Option String) : 0 ≤ guests_deduction ga gb := by
  unfold guests_deduction; split <;> norm_num

lemma budget_conflict_deduction_pos :
    ∀ a b : Option Int, budget_conflict a b → 0 < budget_deduction a b
  | some x, some y, h => by
    obtain ⟨hx, hy, hmx, hlt⟩ := h
    simp only [budget_deduction, if_pos (And.intro hx hy), if_pos hmx]
    refine lt_min ?_ (by norm_num)
    have h50 : (50 : Int) ≤ (|x - y| * 100) / max x y :=
      (Int.le_ediv_iff_mul_le hmx).mpr (le_of_lt hlt)
    exact lt_of_lt_of_le (by norm_num) h50
  | none, none, h => h.elim
  | none, some _, h => h.elim
  | some _, none, h => h.elim

lemma total_pos_of_budget_conflict (A B : Profile)
    (h : budget_conflict A.budget_PKR B.budget_PKR) : 0 < total_deduction A B := by
  unfold total_deduction
  have h1 := budget_conflict_deduction_pos _ _ h
  have h2 := lifestyle_deduction_nonneg
    (infer_lifestyle A.sleep_schedule A.noise_tolerance)
    (infer_lifestyle B.sleep_schedule B.noise_tolerance)
  have h3 := guests_deduction_nonneg
    (infer_guests_policy A.security_requirement)
    (infer_guests_policy B.security_requirement)
  linarith

lemma total_pos_of_lifestyle_conflict (A B : Profile)
    (h : lifestyle_conflict (infer_lifestyle A.sleep_schedule A.noise_tolerance)
      (infer_lifestyle B.sleep_schedule B.noise_tolerance)) : 0 < total_deduction A B := by
  unfold total_deduction
  have h1 := budget_deduction_nonneg A.budget_PKR B.budget_PKR
  have h2 : lifestyle_deduction (infer_lifestyle A.sleep_schedule A.noise_tolerance)
      (infer_lifestyle B.sleep_schedule B.noise_tolerance) = 30 := if_pos h
  have h3 := guests_deduction_nonneg
    (infer_guests_policy A.security_requirement)
    (infer_guests_policy B.security_requirement)
  linarith

lemma total_pos_of_guest_conflict (A B : Profile)
    (h : guest_conflict (infer_guests_policy A.security_requirement)
      (infer_guests_policy B.security_requirement)) : 0 < total_deduction A B := by
  unfold total_deduction
  have h1 := budget_deduction_nonneg A.budget_PKR B.budget_PKR
  have h2 := lifestyle_deduction_nonneg
    (infer_lifestyle A.sleep_schedule A.noise_tolerance)
    (infer_lifestyle B.sleep_schedule B.noise_tolerance)
  have h3 : guests_deduction (infer_guests_policy A.security_requirement)
      (infer_guests_policy B.security_requirement) = 25 := if_pos h
  linarith

lemma detected_conflicts_ok_eq (A B : Profile) (flags : List DetectedConflict)
    (h : detected_conflicts A B = PyResult.ok flags) :
    flags =
      (if budget_conflict A.budget_PKR B.budget_PKR then [budget_flag] else [])
        ++ (if lifestyle_conflict
              (infer_lifestyle A.sleep_schedule A.noise_tolerance)
              (infer_lifestyle B.sleep_schedule B.noise_tolerance) then
            [lifestyle_flag] else [])
        ++ (if guest_conflict
              (infer_guests_policy A.security_requirement)
              (infer_guests_policy B.security_requirement) then
            [guest_flag] else []) := by
  unfold detected_conflicts at h
  by_cases h1 : 0 < total_deduction A B
  · rw [if_pos h1] at h
    by_cases h2 : budgets_bound A.budget_PKR B.budget_PKR
    · rw [if_pos h2] at h
      injection h with h
      exact h.symm
    · rw [if_neg h2] at h
      exact PyResult.noConfusion h
  · rw [if_neg h1] at h
    injection h with h
    subst h
    rw [if_neg (fun hc => h1 (total_pos_of_budget_conflict A B hc)),
      if_neg (fun hc => h1 (total_pos_of_lifestyle_conflict A B hc)),
      if_neg (fun hc => h1 (total_pos_of_guest_conflict A B hc))]
    rfl

lemma mem_ite_singleton {c d : DetectedConflict} {p : Prop} [Decidable p] :
    (c ∈ if p then [d] else []) ↔ p ∧ c = d := by
  split <;> rename_i hp <;> simp [hp]

lemma budget_flag_mem_iff (A B : Profile) (flags : List DetectedConflict)
    (h : detected_conflicts A B = PyResult.ok flags) :
    budget_flag ∈ flags ↔ budget_conflict A.budget_PKR B.budget_PKR := by
  have hne1 : budget_flag ≠ lifestyle_flag := by decide
  have hne2 : budget_flag ≠ guest_flag := by decide
  rw [detected_conflicts_ok_eq A B flags h]
  simp [List.mem_append, mem_ite_singleton, hne1, hne2]

lemma lifestyle_flag_mem_iff (A B : Profile) (flags : List DetectedConflict)
    (h : detected_conflicts A B = PyResult.ok flags) :
    lifestyle_flag ∈ flags ↔
      lifestyle_conflict (infer_lifestyle A.sleep_schedule A.noise_tolerance)
        (infer_lifestyle B.sleep_schedule B.noise_tolerance) := by
  have hne1 : lifestyle_flag ≠ budget_flag := by decide
  have hne2 : lifestyle_flag ≠ guest_flag := by decide
  rw [detected_conflicts_ok_eq A B flags h]
  simp [List.mem_append, mem_ite_singleton, hne1, hne2]

lemma guest_flag_mem_iff (A B : Profile) (flags : List DetectedConflict)
    (h : detected_conflicts A B = PyResult.ok flags) :
    guest_flag ∈ flags ↔
      guest_conflict (infer_guests_policy A.security_requirement)
        (infer_guests_policy B.security_requirement) := by
  have hne1 : guest_flag ≠ budget_flag := by decide
  have hne2 : guest_flag ≠ lifestyle_flag := by decide
  rw [detected_conflicts_ok_eq A B flags h]
  simp [List.mem_append, mem_ite_singleton, hne1, hne2]

lemma detected_conflicts_flags_cases (A B : Profile) (flags : List DetectedConflict)
    (h : detected_conflicts A B = PyResult.ok flags) :
    ∀ c ∈ flags, c = budget_flag ∨ c = lifestyle_flag ∨ c = guest_flag := by
  rw [detected_conflicts_ok_eq A B flags h]
  intro c hc
  simp only [List.mem_append, mem_ite_singleton] at hc
  tauto

lemma budget_deduction_comm (a b : Option Int) :
    budget_deduction a b = budget_deduction b a := by
  cases a <;> cases b <;> simp only [budget_deduction]
  rename_i x y
  rw [abs_sub_comm, max_comm]
  exact if_congr and_comm rfl rfl

lemma lifestyle_conflict_comm (la lb : Option String) :
    lifestyle_conflict la lb ↔ lifestyle_conflict lb la :=
  ⟨fun ⟨h1, h2, h3⟩ => ⟨h2, h1, h3.symm⟩, fun ⟨h1, h2, h3⟩ => ⟨h2, h1, h3.symm⟩⟩

lemma guest_conflict_comm (ga gb : Option String) :
    guest_conflict ga gb ↔ guest_conflict gb ga :=
  ⟨fun ⟨h1, h2, h3⟩ => ⟨h2, h1, h3.symm⟩, fun ⟨h1, h2, h3⟩ => ⟨h2, h1, h3.symm⟩⟩

lemma lifestyle_deduction_comm (la lb : Option String) :
    lifestyle_deduction la lb = lifestyle_deduction lb la :=
  if_congr (lifestyle_conflict_comm la lb) rfl rfl

lemma guests_deduction_comm (ga gb : Option String) :
    guests_deduction ga gb = guests_deduction gb ga :=
  if_congr (guest_conflict_comm ga gb) rfl rfl

lemma total_deduction_comm (A B : Profile) : total_deduction A B = total_deduction B A := by
  unfold total_deduction
  rw [budget_deduction_comm, lifestyle_deduction_comm, guests_deduction_comm]

-- ## Claim theorems

/-- Claim C1: the deterministic fallback compatibility score is symmetric,
and so is each of its factors — budget proximity, derived lifestyle and
derived guest policy: swapping the two profiles changes nothing. -/
theorem C1_score_symmetric (A B : Profile) :
    compatibility_score A B = compatibility_score B A
    ∧ budget_deduction A.budget_PKR B.budget_PKR = budget_deduction B.budget_PKR A.budget_PKR
    ∧ lifestyle_deduction (infer_lifestyle A.sleep_schedule A.noise_tolerance)
        (infer_lifestyle B.sleep_schedule B.noise_tolerance)
      = lifestyle_deduction (infer_lifestyle B.sleep_schedule B.noise_tolerance)
        (infer_lifestyle A.sleep_schedule A.noise_tolerance)
    ∧ guests_deduction (infer_guests_policy A.security_requirement)
        (infer_guests_policy B.security_requirement)
      = guests_deduction (infer_guests_policy B.security_requirement)
        (infer_guests_policy A.security_requirement) := by
  refine ⟨?_, budget_deduction_comm _ _, lifestyle_deduction_comm _ _, guests_deduction_comm _ _⟩
  unfold compatibility_score
  rw [total_deduction_comm]

/-- Claim C8: for all profiles the fallback compatibility score is an integer
clamped to the interval from 0 to 100. -/
theorem C8_score_bounds (A B : Profile) :
    0 ≤ compatibility_score A B ∧ compatibility_score A B ≤ 100 :=
  ⟨le_max_left 0 _, max_le (by norm_num) (min_le_left 100 _)⟩

/-- Claim C3 counterexample: the source truncates (Python `int`) the budget
ratio, it does not round it.  With budgets 2700 and 3200 the exact ratio is
15.625 percent: the code deducts 15, while the rounding formula claimed by C3
gives 16. -/
theorem C3_counterexample :
    budget_deduction (some 2700) (some 3200) = 15
    ∧ budget_deduction_claimC3 2700 3200 = 16 := by decide

/-- Claim C3 (amended): with both budgets present and positive, the
detailed-mode budget deduction equals
`min(trunc(|budget_a - budget_b| / max(budget_a, budget_b) * 100), 20)` —
truncation toward zero (floor, as the value is non-negative), not rounding to
nearest; if either budget is absent the budget factor contributes zero; and
budgets 24000 and 30000 give deduction exactly 20. -/
theorem C3_budget_deduction_formula (x y : Int) (hx : 0 < x) (hy : 0 < y) :
    budget_deduction (some x) (some y) = min ((|x - y| * 100) / max x y) 20
    ∧ budget_deduction none (some y) = 0
    ∧ budget_deduction (some x) none = 0
    ∧ budget_deduction none none = 0
    ∧ budget_deduction (some 24000) (some 30000) = 20 := by
  refine ⟨?_, rfl, rfl, rfl, by decide⟩
  simp only [budget_deduction,
    if_pos (And.intro (ne_of_gt hx) (ne_of_gt hy)),
    if_pos (lt_max_iff.mpr (Or.inl hx))]

theorem C3_witness :
    budget_deduction (some 24000) (some 30000)
      = min ((|(24000 : Int) - 30000| * 100) / max (24000 : Int) 30000) 20 :=
  (C3_budget_deduction_formula 24000 30000 (by norm_num) (by norm_num)).1

/-- Claim C4 counterexample: re-normalizing the canonical cleanliness value
"high" does not return it unchanged — no keyword of the cleanliness table
occurs in "high", so the normalizer falls through to the default "medium". -/
theorem C4_counterexample :
    profile_reader.normalize_cleanliness (some "high") = some "medium"
    ∧ profile_reader.normalize_cleanliness (some "high") ≠ some "high" := by decide

/-- Claim C4 (amended): re-normalization is the identity on every canonical
sleep_schedule value (in both copies of the normalizer) and on cleanliness
"medium" and noise_tolerance "medium" and "high"; but canonical cleanliness
"high" and "low" both collapse to "medium", and canonical noise_tolerance
"low" collapses to "medium". -/
theorem C4_roundtrip :
    profile_reader.normalize_sleep_schedule (some "early") = some "early"
    ∧ profile_reader.normalize_sleep_schedule (some "normal") = some "normal"
    ∧ profile_reader.normalize_sleep_schedule (some "night_owl") = some "night_owl"
    ∧ profile_reader.normalize_sleep_schedule (some "flexible") = some "flexible"
    ∧ profile_proccesor.normalize_sleep_schedule (some "early") = some "early"
    ∧ profile_proccesor.normalize_sleep_schedule (some "normal") = some "normal"
    ∧ profile_proccesor.normalize_sleep_schedule (some "night_owl") = some "night_owl"
    ∧ profile_proccesor.normalize_sleep_schedule (some "flexible") = some "flexible"
    ∧ profile_reader.normalize_cleanliness (some "medium") = some "medium"
    ∧ profile_reader.normalize_cleanliness (some "high") = some "medium"
    ∧ profile_reader.normalize_cleanliness (some "low") = some "medium"
    ∧ profile_reader.normalize_noise_tolerance (some "medium") = some "medium"
    ∧ profile_reader.normalize_noise_tolerance (some "high") = some "high"
    ∧ profile_reader.normalize_noise_tolerance (some "low") = some "medium" := by decide

/-- Claim C2 (code bug): the spec requires every scoring and conflict
operation to be total over structurally valid input, in particular when both
budgets are absent but another factor deducts points.  Exactly there the
fallback conflict block of `score_compatibility` reads the never-assigned
local `diff` (line 212) and raises `UnboundLocalError` instead of returning:
here the two derived lifestyles differ (social vs quiet), the deduction is
30 > 0, and the computation aborts. -/
theorem C2_unbound_diff_crash :
    total_deduction
        { id := some "A", sleep_schedule := some "night_owl", noise_tolerance := some "high" }
        { id := some "B", sleep_schedule := some "early", noise_tolerance := some "low" } = 30
    ∧ detected_conflicts
        { id := some "A", sleep_schedule := some "night_owl", noise_tolerance := some "high" }
        { id := some "B", sleep_schedule := some "early", noise_tolerance := some "low" }
      = PyResult.error "UnboundLocalError: diff referenced before assignment" := by decide

/-- Claim C5 counterexample: with budgets 24000 and 30000 the budget deduction
is 20, its maximum — a deduction fraction of 100 percent, far above the
claimed 50-percent trigger — and |Δbudget| = 6000 stays below the claimed
coarse 10000 threshold, yet the code emits no `budget_disparity` flag at all,
because its actual test is a relative gap above 50 percent of the larger
budget (6000/30000 = 20 percent). -/
theorem C5_counterexample :
    budget_deduction (some 24000) (some 30000) > 10
    ∧ detected_conflicts { budget_PKR := some 24000 } { budget_PKR := some 30000 }
      = PyResult.ok [] := by decide

/-- Claim C5 (amended): in the fallback path the `budget_disparity` flag fires
exactly when the conflict block runs without raising and the two budgets are
present, nonzero, with positive maximum and an absolute gap exceeding 50
percent of that maximum (`budget_conflict`); there is no coarse
|Δbudget| > 10000 rule and no severity banding — a fired flag always has
severity "high" and confidence 88. -/
theorem C5_budget_disparity_rule (A B : Profile) (flags : List DetectedConflict)
    (h : detected_conflicts A B = PyResult.ok flags) :
    (budget_flag ∈ flags ↔ budget_conflict A.budget_PKR B.budget_PKR)
    ∧ ∀ c ∈ flags, c.type = "budget_disparity" →
        c.severity = "high" ∧ c.confidence = 88 := by
  refine ⟨budget_flag_mem_iff A B flags h, ?_⟩
  intro c hc hct
  rcases detected_conflicts_flags_cases A B flags h c hc with rfl | rfl | rfl
  · exact ⟨rfl, rfl⟩
  · exact absurd hct (by decide)
  · exact absurd hct (by decide)

theorem C5_witness :
    budget_flag ∈ ([budget_flag] : List DetectedConflict) :=
  ((C5_budget_disparity_rule { budget_PKR := some 1000 } { budget_PKR := some 10000 }
      [budget_flag] (by decide)).1).mpr (by decide)

/-- Claim C6 counterexample: the two example profiles (A: flexible/medium,
derived "relaxed"; B: night_owl/high, derived "social") have differing derived
lifestyles, but — with no budgets given, as in the claim — the fallback
conflict block raises `UnboundLocalError` on the unassigned local `diff`, so
no `lifestyle_mismatch` flag is produced. -/
theorem C6_counterexample :
    infer_lifestyle (some "flexible") (some "medium") = some "relaxed"
    ∧ infer_lifestyle (some "night_owl") (some "high") = some "social"
    ∧ detected_conflicts
        { sleep_schedule := some "flexible", noise_tolerance := some "medium" }
        { sleep_schedule := some "night_owl", noise_tolerance := some "high" }
      = PyResult.error "UnboundLocalError: diff referenced before assignment" := by decide

/-- Claim C6 (amended): on canonical values the derived lifestyle is "social"
if sleep is night_owl or noise is high, "quiet" if sleep is early or noise is
low, else "relaxed" (sleep checked before noise); and whenever the two
profiles have differing derived lifestyles AND the conflict block returns without
raising (which requires both budgets present and nonzero), a
`lifestyle_mismatch` flag with severity "high" and confidence 85 is produced
and the lifestyle factor deducts 30 points; in particular flexible/medium
derives "relaxed" and night_owl/high derives "social". -/
theorem C6_lifestyle_rule (s n : String)
    (hs : s ∈ ["early", "normal", "night_owl", "flexible"])
    (hn : n ∈ ["low", "medium", "high"])
    (A B : Profile) (flags : List DetectedConflict)
    (h : detected_conflicts A B = PyResult.ok flags)
    (hc : lifestyle_conflict (infer_lifestyle A.sleep_schedule A.noise_tolerance)
      (infer_lifestyle B.sleep_schedule B.noise_tolerance)) :
    infer_lifestyle (some s) (some n)
      = some (if s = "night_owl" ∨ n = "high" then "social"
          else if s = "early" ∨ n = "low" then "quiet" else "relaxed")
    ∧ lifestyle_deduction (infer_lifestyle A.sleep_schedule A.noise_tolerance)
        (infer_lifestyle B.sleep_schedule B.noise_tolerance) = 30
    ∧ lifestyle_flag ∈ flags
    ∧ lifestyle_flag = ⟨"lifestyle_mismatch", "high", 85⟩
    ∧ infer_lifestyle (some "flexible") (some "medium") = some "relaxed"
    ∧ infer_lifestyle (some "night_owl") (some "high") = some "social" := by
  refine ⟨?_, if_pos hc, (lifestyle_flag_mem_iff A B flags h).mpr hc, rfl, by decide, by decide⟩
  fin_cases hs <;> fin_cases hn <;> decide

theorem C6_witness :
    lifestyle_flag ∈ ([lifestyle_flag] : List DetectedConflict)
    ∧ infer_lifestyle (some "flexible") (some "medium") = some "relaxed" := by
  have h := C6_lifestyle_rule "flexible" "medium" (by decide) (by decide)
    { sleep_schedule := some "flexible", noise_tolerance := some "medium",
      budget_PKR := some 20000 }
    { sleep_schedule := some "night_owl", noise_tolerance := some "high",
      budget_PKR := some 20000 }
    [lifestyle_flag] (by decide) (by decide)
  exact ⟨h.2.2.1, h.2.2.2.2.1⟩

/-- Claim C7 counterexample: one profile sleeps night_owl and the other early
(equal budgets keep the block from raising and from flagging the budget), yet
the emitted conflict list is exactly one `lifestyle_mismatch` flag — the
fallback detector has no `sleep_mismatch` rule at all. -/
theorem C7_counterexample :
    detected_conflicts
        { sleep_schedule := some "night_owl", noise_tolerance := some "medium",
          budget_PKR := some 20000 }
        { sleep_schedule := some "early", noise_tolerance := some "medium",
          budget_PKR := some 20000 }
      = PyResult.ok [⟨"lifestyle_mismatch", "high", 85⟩] := by decide

/-- Claim C7 (amended): the fallback conflict detector never emits a
`sleep_mismatch` flag (a night_owl-versus-early pair surfaces only indirectly,
as a `lifestyle_mismatch`), and the flags it does emit always appear in the
fixed rule order budget_disparity, then lifestyle_mismatch, then
guest_policy. -/
theorem C7_no_sleep_rule (A B : Profile) (flags : List DetectedConflict)
    (h : detected_conflicts A B = PyResult.ok flags) :
    (∀ c ∈ flags, c.type ≠ "sleep_mismatch")
    ∧ flags.map DetectedConflict.type
      = (["budget_disparity", "lifestyle_mismatch", "guest_policy"].filter
          (fun t => (flags.map DetectedConflict.type).contains t)) := by
  constructor
  · intro c hc
    rcases detected_conflicts_flags_cases A B flags h c hc with rfl | rfl | rfl <;> decide
  · have he := detected_conflicts_ok_eq A B flags h
    subst he
    by_cases h1 : budget_conflict A.budget_PKR B.budget_PKR
      <;> by_cases h2 : lifestyle_conflict
            (infer_lifestyle A.sleep_schedule A.noise_tolerance)
            (infer_lifestyle B.sleep_schedule B.noise_tolerance)
      <;> by_cases h3 : guest_conflict
            (infer_guests_policy A.security_requirement)
            (infer_guests_policy B.security_requirement)
      <;> simp only [if_pos, if_neg, h1, h2, h3, if_true, if_false]
      <;> decide

theorem C7_witness :
    ([⟨"lifestyle_mismatch", "high", 85⟩] : List DetectedConflict).map DetectedConflict.type
      = (["budget_disparity", "lifestyle_mismatch", "guest_policy"].filter
          (fun t => (([⟨"lifestyle_mismatch", "high", 85⟩] : List DetectedConflict).map
            DetectedConflict.type).contains t)) :=
  (C7_no_sleep_rule
    { sleep_schedule := some "night_owl", noise_tolerance := some "medium",
      budget_PKR := some 25000 }
    { sleep_schedule := some "early", noise_tolerance := some "medium",
      budget_PKR := some 25000 }
    [⟨"lifestyle_mismatch", "high", 85⟩] (by decide)).2

/-- Claim C10: if sleep_schedule or noise_tolerance is absent, the derived
lifestyle is null and the lifestyle comparison is skipped entirely — zero
deduction and no `lifestyle_mismatch` flag in any returned conflict list;
likewise an absent or empty security_requirement derives a null guest policy
(not "moderate"), and a null guest policy on either side skips the 25-point
guest-policy deduction and the `guest_policy` flag. -/
theorem C10_missing_fields_skip (A B : Profile) (flags : List DetectedConflict)
    (h : detected_conflicts A B = PyResult.ok flags) :
    (A.sleep_schedule = none ∨ A.noise_tolerance = none →
      infer_lifestyle A.sleep_schedule A.noise_tolerance = none)
    ∧ (infer_lifestyle A.sleep_schedule A.noise_tolerance = none
        ∨ infer_lifestyle B.sleep_schedule B.noise_tolerance = none →
      lifestyle_deduction (infer_lifestyle A.sleep_schedule A.noise_tolerance)
          (infer_lifestyle B.sleep_schedule B.noise_tolerance) = 0
      ∧ ∀ c ∈ flags, c.type ≠ "lifestyle_mismatch")
    ∧ (A.security_requirement = none ∨ A.security_requirement = some "" →
      infer_guests_policy A.security_requirement = none)
    ∧ (infer_guests_policy A.security_requirement = none
        ∨ infer_guests_policy B.security_requirement = none →
      guests_deduction (infer_guests_policy A.security_requirement)
          (infer_guests_policy B.security_requirement) = 0
      ∧ ∀ c ∈ flags, c.type ≠ "guest_policy") := by
  refine ⟨?_, ?_, ?_, ?_⟩
  · rintro (h1 | h1) <;> rw [h1]
    · exact infer_lifestyle_none_left _
    · exact infer_lifestyle_none_right _
  · intro h1
    have hnc : ¬ lifestyle_conflict (infer_lifestyle A.sleep_schedule A.noise_tolerance)
        (infer_lifestyle B.sleep_schedule B.noise_tolerance) := by
      rcases h1 with h1 | h1 <;> rw [h1] <;> rintro ⟨ht, ht2, _⟩
      · exact Bool.false_ne_true ht
      · exact Bool.false_ne_true ht2
    refine ⟨if_neg hnc, ?_⟩
    intro c hc
    rcases detected_conflicts_flags_cases A B flags h c hc with rfl | rfl | rfl
    · decide
    · exact absurd ((lifestyle_flag_mem_iff A B flags h).mp hc) hnc
    · decide
  · rintro (h1 | h1) <;> rw [h1]
    · rfl
    · decide
  · intro h1
    have hnc : ¬ guest_conflict (infer_guests_policy A.security_requirement)
        (infer_guests_policy B.security_requirement) := by
      rcases h1 with h1 | h1 <;> rw [h1] <;> rintro ⟨ht, ht2, _⟩
      · exact Bool.false_ne_true ht
      · exact Bool.false_ne_true ht2
    refine ⟨if_neg hnc, ?_⟩
    intro c hc
    rcases detected_conflicts_flags_cases A B flags h c hc with rfl | rfl | rfl
    · decide
    · decide
    · exact absurd ((guest_flag_mem_iff A B flags h).mp hc) hnc

theorem C10_witness :
    infer_lifestyle none none = none
    ∧ lifestyle_deduction (infer_lifestyle none none) (infer_lifestyle none none) = 0
    ∧ infer_guests_policy none = none := by
  have h := C10_missing_fields_skip {} {} [] (by decide)
  exact ⟨h.1 (Or.inl rfl), (h.2.1 (Or.inl (h.1 (Or.inl rfl)))).1, h.2.2.1 (Or.inl rfl)⟩
